import Mathlib

/-!
Shallow embedding of the pymls layer machinery (src/pymls/layers/layer.py)
and the pypw interface resolver (src/pypw/interface/utils.py).

Python values carried by the layer machinery are modelled by `PyVal`
(with exact rational payloads, so that value equality in Lean models
bit-for-bit equality of the stored Python objects), Python runtime types
by `PyType`, and exceptions by `Except String`.  Stateful methods are
modelled as functions from the receiver state to the updated state; a
method that can raise returns the updated state together with an
`Except` result, and the returned state equals the input state whenever
the raise happens before any field assignment in the source.
-/

/-- Python runtime types that appear as expected parameter types in a
medium parameter schema or as the type of a drawn sample. -/
inductive PyType
  | int
  | float
  | str
  | cplx
  deriving DecidableEq

/-- Display name of a Python type, as it identifies the type inside the
TypeError message raised by StochasticLayer.__draw_medium_parameter. -/
def PyType.pyName : PyType → String
  | .int => "int"
  | .float => "float"
  | .str => "str"
  | .cplx => "complex"

/-- A Python value: the payloads are exact (rationals for floats), so
equality of `PyVal` models bit-for-bit equality of stored values. -/
inductive PyVal
  | vint (n : Int)
  | vfloat (q : Rat)
  | vstr (s : String)
  | vcplx (re im : Rat)
  deriving DecidableEq

/-- Python type(v): the runtime type tag of a value. -/
def PyVal.typeOf : PyVal → PyType
  | .vint _ => .int
  | .vfloat _ => .float
  | .vstr _ => .str
  | .vcplx _ _ => .cplx

/-- Python float(v) coercion, used by StochasticLayer.__draw_thickness.
Numbers coerce; complex raises TypeError.  Strings: Python parses
numeric strings, which is not modelled here (no claim depends on it);
the modelled behaviour is the non-numeric-string ValueError case. -/
def PyVal.pyFloat : PyVal → Except String PyVal
  | .vint n => .ok (.vfloat (n : Rat))
  | .vfloat q => .ok (.vfloat q)
  | .vstr _ => .error "ValueError: could not convert string to float"
  | .vcplx _ _ => .error "TypeError: cannot convert complex to float"

/-- Python dict(list-of-pairs) restricted to lookup: keys inserted in
list order, a later binding of the same key overriding an earlier one.
Models dict(self.medium.EXPECTED_PARAMS + self.medium.OPT_PARAMS). -/
def dictOf (l : List (String × PyType)) : String → Option PyType :=
  l.foldl (fun d kv => fun k => if k = kv.1 then some kv.2 else d k) (fun _ => none)

/-- Modelled from the spec: the Medium data model (spec section 3).  The
medium classes themselves (pymls.media) are not part of the inspected
core; this record holds exactly the attributes layer.py reads and
writes: the class attributes EXPECTED_PARAMS and OPT_PARAMS (the
required and optional parameter schemas, lists of name/expected-type
pairs), the instance parameter attributes (getattr/setattr by name,
modelled as a total valuation `params`), the cached last-evaluated
angular frequency `omega` (per the spec, mutating a parameter marks the
derived state stale by resetting this cache, and the draw path in
layer.py writes the sentinel -1 to it), and the identity fields. -/
structure Medium where
  name : String
  MODEL : String
  EXPECTED_PARAMS : List (String × PyType)
  OPT_PARAMS : List (String × PyType)
  params : String → PyVal
  omega : Rat

/-- Python setattr(medium, k, v) for a parameter attribute. -/
def Medium.setParam (m : Medium) (k : String) (v : PyVal) : Medium :=
  { m with params := fun j => if j = k then v else m.params j }

/-- Layer (value model).  Layer.__init__ stores the thickness as given,
a deep copy of the medium, and the name.  Lean values are immutable, so
the deep copy is the value itself here; the reference/aliasing content
of copy.deepcopy is modelled separately by `LayerH.init` on `PyHeap`. -/
structure Layer where
  thickness : PyVal
  medium : Medium
  name : String

/-- Layer.__init__(medium, thickness, name): no validation of any kind
is performed; every field is stored exactly as passed. -/
def Layer.init (medium : Medium) (thickness : PyVal) (name : String) : Layer :=
  { thickness := thickness, medium := medium, name := name }

/-- Which draw method StochasticLayer.__init__ bound onto the instance
via setattr(self, new_draw, ...): the dynamic method binding of the
source is modelled as a tag resolved once at construction. -/
inductive DrawTarget
  | drawThickness
  | drawMediumParameter
  deriving DecidableEq

/-- StochasticLayer state.  `medium_params` is the private dict
self.__medium_params built at construction from the copied medium.
The pdf is an opaque zero-argument callable in the source; its
successive samples are supplied as the `draw` argument of the draw
methods below, so no pdf field is stored. -/
structure StochasticLayer where
  thickness : PyVal
  medium : Medium
  name : String
  stochastic_param : String
  medium_params : String → Option PyType
  initial_param_value : PyVal
  drawTarget : DrawTarget

/-- StochasticLayer.__init__: after the Layer fields are set (with the
medium deep-copied), the parameter dict is built; if the stochastic
parameter is the literal thickness, the thickness draw method is bound
and the initial value records the thickness; otherwise, if the name is
a key of the parameter dict, the current parameter value is recorded
and the medium-parameter draw method is bound; otherwise ValueError is
raised, so no layer object exists. -/
def StochasticLayer.init (medium : Medium) (thickness : PyVal)
    (stochastic_param : String) (name : String) : Except String StochasticLayer :=
  let m := medium
  let mp := dictOf (m.EXPECTED_PARAMS ++ m.OPT_PARAMS)
  if stochastic_param = "thickness" then
    .ok { thickness := thickness, medium := m, name := name,
          stochastic_param := stochastic_param, medium_params := mp,
          initial_param_value := thickness, drawTarget := .drawThickness }
  else if (mp stochastic_param).isSome then
    .ok { thickness := thickness, medium := m, name := name,
          stochastic_param := stochastic_param, medium_params := mp,
          initial_param_value := m.params stochastic_param,
          drawTarget := .drawMediumParameter }
  else
    .error "Unable to draw a parameter undefined in the layer"

/-- StochasticLayer.__draw_thickness: self.thickness = float(self.pdf()).
Returns None on success; on a float() failure the exception propagates
before the assignment, leaving the state unchanged. -/
def StochasticLayer.draw_thickness (sl : StochasticLayer) (draw : PyVal) :
    StochasticLayer × Except String (Option PyVal) :=
  match draw.pyFloat with
  | .ok f => ({ sl with thickness := f }, .ok none)
  | .error e => (sl, .error e)

/-- StochasticLayer.__draw_medium_parameter: looks up the expected type
in self.__medium_params, compares it with type(draw); on a match the
parameter is assigned via setattr and self.medium.omega is set to -1;
on a mismatch TypeError is raised before any assignment, so the state
is returned unchanged.  Returns the draw on success. -/
def StochasticLayer.draw_medium_parameter (sl : StochasticLayer) (draw : PyVal) :
    StochasticLayer × Except String (Option PyVal) :=
  match sl.medium_params sl.stochastic_param with
  | none => (sl, .error "KeyError")
  | some expected_type =>
    if draw.typeOf = expected_type then
      ({ sl with
          medium := { sl.medium.setParam sl.stochastic_param draw with omega := -1 } },
       .ok (some draw))
    else
      (sl, .error ("Draw of type " ++ draw.typeOf.pyName ++
                   " but expected type " ++ expected_type.pyName))

/-- self.new_draw(): dispatches to the draw method bound at
construction. -/
def StochasticLayer.new_draw (sl : StochasticLayer) (draw : PyVal) :
    StochasticLayer × Except String (Option PyVal) :=
  match sl.drawTarget with
  | .drawThickness => sl.draw_thickness draw
  | .drawMediumParameter => sl.draw_medium_parameter draw

/-- StochasticLayer.reinit: restores the thickness, or the medium
parameter via setattr, to initial_param_value.  Note that the medium
branch does not touch self.medium.omega. -/
def StochasticLayer.reinit (sl : StochasticLayer) : StochasticLayer :=
  if sl.stochastic_param = "thickness" then
    { sl with thickness := sl.initial_param_value }
  else
    { sl with medium := sl.medium.setParam sl.stochastic_param sl.initial_param_value }

/-- The randomized quantity of a stochastic layer: the thickness when
the stochastic parameter is the literal thickness, otherwise the named
medium parameter. -/
def StochasticLayer.targetValue (sl : StochasticLayer) : PyVal :=
  if sl.stochastic_param = "thickness" then sl.thickness
  else sl.medium.params sl.stochastic_param

/-!
Reference-semantics model for the deep copy performed by Layer.__init__
(copy.deepcopy).  Medium objects live on a heap addressed by naturals;
`deepcopy` allocates a fresh address holding an equal state, and a
layer stores the address of its own copy.  Mutation through an address
updates only that address.
-/

/-- A heap of medium objects: `next` is the first unallocated address. -/
structure PyHeap where
  mediums : Nat → Medium
  next : Nat

/-- copy.deepcopy on a medium reference: allocates a fresh address
holding a state equal to the source object's state. -/
def PyHeap.deepcopy (h : PyHeap) (ref : Nat) : PyHeap × Nat :=
  ({ mediums := fun a => if a = h.next then h.mediums ref else h.mediums a,
     next := h.next + 1 }, h.next)

/-- Layer under reference semantics: the medium field is an address. -/
structure LayerH where
  thickness : PyVal
  mediumRef : Nat
  name : String

/-- Layer.__init__ under reference semantics: self.medium =
copy.deepcopy(medium), so the layer stores a fresh address. -/
def LayerH.init (h : PyHeap) (mediumRef : Nat) (thickness : PyVal) (name : String) :
    PyHeap × LayerH :=
  let hc := h.deepcopy mediumRef
  (hc.1, { thickness := thickness, mediumRef := hc.2, name := name })

/-- setattr(layer.medium, k, v) under reference semantics: mutates the
object at the given address in place. -/
def heapSetParam (h : PyHeap) (ref : Nat) (k : String) (v : PyVal) : PyHeap :=
  { h with mediums := fun a => if a = ref then (h.mediums a).setParam k v else h.mediums a }

/-!
The interface resolver (src/pypw/interface/utils.py).  The coupling
procedures it returns (imported from pypw.interface.interfaces, not part
of the inspected core) are opaque to the resolver; they are modelled as
distinct markers.  The resolver returns None for a same-model pair,
a coupling marker, or raises NotImplementedError; a pair matching no
branch falls off the end of the Python function and returns None.
The poroelastic (Biot) model carries the tag "pem" in the code.
-/

/-- The three coupling procedures generic_interface can return,
imported by utils.py from pypw.interface.interfaces. -/
inductive InterfaceFn
  | fluid_elastic_interface
  | elastic_fluid_interface
  | fluid_pem_interface
  deriving DecidableEq

/-- generic_interface(medium_right, medium_left), dispatching on the
two MODEL tags.  The Python body is three guarded blocks with early
returns; a fall-through off the end returns None, which is modelled by
the final else branch.  The flattening below is branch-for-branch
faithful: when medium_right is fluid or elastic and no inner test on
medium_left fires, control reaches the end of the function. -/
def generic_interface (medium_right medium_left : String) :
    Except String (Option InterfaceFn) :=
  if medium_right = "fluid" ∧ medium_left = "fluid" then .ok none
  else if medium_right = "fluid" ∧ medium_left = "elastic" then
    .ok (some .elastic_fluid_interface)
  else if medium_right = "fluid" ∧ medium_left = "pem" then
    .ok (some .fluid_pem_interface)
  else if medium_right = "elastic" ∧ medium_left = "fluid" then
    .ok (some .fluid_elastic_interface)
  else if medium_right = "elastic" ∧ medium_left = "elastic" then .ok none
  else if medium_right = "elastic" ∧ medium_left = "pem" then
    .error "NotImplementedError"
  else if medium_right = "pem" then .error "NotImplementedError"
  else .ok none

/-!
Concrete sample data used by the closed witness and counterexample
theorems below.
-/

/-- A concrete fluid medium with a two-entry required schema, in the
shape of the Air medium the tests use (whole-number parameter values,
so that concrete evaluations reduce by decide). -/
def airMedium : Medium :=
  { name := "air", MODEL := "fluid",
    EXPECTED_PARAMS := [("rho", .float), ("c", .float)],
    OPT_PARAMS := [],
    params := fun k =>
      if k = "rho" then .vfloat 2 else if k = "c" then .vfloat 343 else .vint 0,
    omega := 0 }

/-- The stochastic layer produced by StochasticLayer.init airMedium
(.vfloat 2) "rho" "L": target is the medium parameter rho. -/
def slRho : StochasticLayer :=
  { thickness := .vfloat 2, medium := airMedium, name := "L",
    stochastic_param := "rho",
    medium_params := dictOf (airMedium.EXPECTED_PARAMS ++ airMedium.OPT_PARAMS),
    initial_param_value := airMedium.params "rho",
    drawTarget := .drawMediumParameter }

/-- A stochastic layer in a mid-sweep state: the rho parameter has been
drawn away from its initial value and the medium has since been
evaluated at an angular frequency of 50, so the cached derived state
belongs to the drawn parameter value. -/
def slStale : StochasticLayer :=
  { thickness := .vfloat 2,
    medium := { (airMedium.setParam "rho" (.vfloat 5)) with omega := 50 },
    name := "L",
    stochastic_param := "rho",
    medium_params := dictOf (airMedium.EXPECTED_PARAMS ++ airMedium.OPT_PARAMS),
    initial_param_value := airMedium.params "rho",
    drawTarget := .drawMediumParameter }

/-- A one-object heap holding airMedium at address 0. -/
def heap0 : PyHeap :=
  { mediums := fun _ => airMedium, next := 1 }

/-!
Helper lemmas (shared).
-/

/-- Folding the dict-insertion step over a list leaves the accumulator
unchanged at any key that is not among the inserted keys. -/
theorem dictOf_foldl_aux (l : List (String × PyType)) (d : String → Option PyType)
    (k : String) (h : k ∉ l.map Prod.fst) :
    l.foldl (fun d kv => fun j => if j = kv.1 then some kv.2 else d j) d k = d k := by
  induction l generalizing d with
  | nil => rfl
  | cons a l ih =>
    simp only [List.map_cons, List.mem_cons, not_or] at h
    rw [List.foldl_cons, ih _ h.2]
    simp [h.1]

/-- A key absent from the pair list is absent from the dict built from it. -/
theorem dictOf_eq_none (l : List (String × PyType)) (k : String)
    (h : k ∉ l.map Prod.fst) : dictOf l k = none :=
  dictOf_foldl_aux l _ k h

/-- Decidable equality for Except values with decidable components, so
concrete resolver and draw evaluations can be settled by decide. -/
instance {e a : Type} [DecidableEq e] [DecidableEq a] : DecidableEq (Except e a) := fun x y =>
  match x, y with
  | .ok u, .ok v =>
    if h : u = v then isTrue (by rw [h]) else isFalse (fun he => h (Except.ok.inj he))
  | .error u, .error v =>
    if h : u = v then isTrue (by rw [h]) else isFalse (fun he => h (Except.error.inj he))
  | .ok _, .error _ => isFalse (fun he => Except.noConfusion he)
  | .error _, .ok _ => isFalse (fun he => Except.noConfusion he)

/-- C1 counterexample: the claim says resolving two poroelastic media
(model tag pem) yields the no-op marker, but generic_interface raises
NotImplementedError for every pair whose right medium model is pem,
including (pem, pem). -/
theorem C1_counterexample : generic_interface "pem" "pem" ≠ Except.ok none := by
  decide

/-- C1 (amended): resolving (fluid, fluid) and (elastic, elastic)
yields the no-op marker None; resolving (pem, pem) instead raises
NotImplementedError, because the resolver raises for any pair whose
right medium model is pem before inspecting the left medium. -/
theorem C1_same_model_pairs :
    generic_interface "fluid" "fluid" = Except.ok none ∧
    generic_interface "elastic" "elastic" = Except.ok none ∧
    generic_interface "pem" "pem" = Except.error "NotImplementedError" := by
  decide

/-- C5: the resolver is asymmetric: (fluid, elastic) resolves to the
elastic_fluid_interface procedure while (elastic, fluid) resolves to
the distinct fluid_elastic_interface procedure. -/
theorem C5_asymmetry :
    generic_interface "fluid" "elastic" =
      Except.ok (some InterfaceFn.elastic_fluid_interface) ∧
    generic_interface "elastic" "fluid" =
      Except.ok (some InterfaceFn.fluid_elastic_interface) ∧
    InterfaceFn.elastic_fluid_interface ≠ InterfaceFn.fluid_elastic_interface := by
  decide

/-- C9 counterexample: the claim lists the raising pairings exhaustively
as (elastic, pem), (pem, fluid) and (pem, elastic) and asserts that no
supported pairing raises; but (pem, pem) — the same-model poroelastic
pairing, a no-op in the policy table — also raises NotImplementedError. -/
theorem C9_counterexample :
    generic_interface "pem" "pem" = Except.error "NotImplementedError" := by
  decide

/-- C9 (amended): generic_interface raises NotImplementedError exactly
when the pair is (elastic, pem) or when the right medium model is pem —
so (pem, fluid), (pem, elastic) and also (pem, pem) raise — and no
other pairing raises. -/
theorem C9_raises_iff (mr ml : String) :
    generic_interface mr ml = Except.error "NotImplementedError" ↔
      (mr = "elastic" ∧ ml = "pem") ∨ mr = "pem" := by
  unfold generic_interface
  split_ifs <;> simp_all

/-- C10: a model pair matching no branch of generic_interface falls off
the end of the function and returns None, silently treated as the no-op
case: this happens when the right model is fluid or elastic and the
left model is outside the set of fluid, elastic and pem, and when the
right model is itself outside that set. -/
theorem C10_unknown_model_falls_through (mr ml : String)
    (h : ((mr = "fluid" ∨ mr = "elastic") ∧ ml ≠ "fluid" ∧ ml ≠ "elastic" ∧ ml ≠ "pem") ∨
         (mr ≠ "fluid" ∧ mr ≠ "elastic" ∧ mr ≠ "pem")) :
    generic_interface mr ml = Except.ok none := by
  unfold generic_interface
  rcases h with ⟨h1 | h1, h2, h3, h4⟩ | ⟨h1, h2, h3⟩ <;> split_ifs <;> simp_all

/-- C10 witness: the resolver applied to the unknown left model tag
plastic under a fluid right medium returns the no-op marker. -/
theorem C10_witness :
    (((("fluid" : String) = "fluid" ∨ ("fluid" : String) = "elastic") ∧
        ("plastic" : String) ≠ "fluid" ∧ ("plastic" : String) ≠ "elastic" ∧
        ("plastic" : String) ≠ "pem") ∨
      (("fluid" : String) ≠ "fluid" ∧ ("fluid" : String) ≠ "elastic" ∧
        ("fluid" : String) ≠ "pem")) ∧
    generic_interface "fluid" "plastic" = Except.ok none :=
  ⟨Or.inl ⟨Or.inl rfl, by decide, by decide, by decide⟩,
   C10_unknown_model_falls_through "fluid" "plastic"
     (Or.inl ⟨Or.inl rfl, by decide, by decide, by decide⟩)⟩

/-- C2: when the randomized target is a medium parameter and the drawn
value's runtime type differs from the type the parameter schema
declares, new_draw raises a TypeError whose message names the actual
and the expected type, and the whole layer state — in particular the
medium parameter valuation and the cached omega — is returned exactly
unchanged, because the raise happens before any assignment. -/
theorem C2_type_mismatch_raises_unmodified (sl : StochasticLayer) (draw : PyVal)
    (et : PyType)
    (htarget : sl.drawTarget = DrawTarget.drawMediumParameter)
    (hlook : sl.medium_params sl.stochastic_param = some et)
    (hne : draw.typeOf ≠ et) :
    sl.new_draw draw =
      (sl, Except.error ("Draw of type " ++ draw.typeOf.pyName ++
                         " but expected type " ++ et.pyName)) := by
  simp [StochasticLayer.new_draw, htarget, StochasticLayer.draw_medium_parameter,
        hlook, hne]

/-- C2 witness: drawing the int 3 for the float-typed parameter rho of
slRho raises the TypeError naming int and float and leaves the layer
unchanged. -/
theorem C2_witness :
    slRho.drawTarget = DrawTarget.drawMediumParameter ∧
    slRho.medium_params slRho.stochastic_param = some PyType.float ∧
    (PyVal.vint 3).typeOf ≠ PyType.float ∧
    slRho.new_draw (PyVal.vint 3) =
      (slRho, Except.error ("Draw of type " ++ (PyVal.vint 3).typeOf.pyName ++
                            " but expected type " ++ PyType.float.pyName)) :=
  ⟨rfl, by decide, by decide,
   C2_type_mismatch_raises_unmodified slRho (PyVal.vint 3) PyType.float rfl
     (by decide) (by decide)⟩

/-- C4: constructing a StochasticLayer whose stochastic parameter name
is neither the literal thickness nor a key of the required or optional
parameter schemas raises ValueError at construction time, so no layer
object ever exists and no error can be deferred to draw time. -/
theorem C4_unknown_param_raises (m : Medium) (t : PyVal) (p n : String)
    (hp : p ≠ "thickness")
    (hmem : p ∉ (m.EXPECTED_PARAMS ++ m.OPT_PARAMS).map Prod.fst) :
    StochasticLayer.init m t p n =
      Except.error "Unable to draw a parameter undefined in the layer" := by
  have hd : dictOf (m.EXPECTED_PARAMS ++ m.OPT_PARAMS) p = none :=
    dictOf_eq_none _ _ hmem
  simp [StochasticLayer.init, hp, hd]

/-- C4 witness: viscosity is not a parameter of airMedium, so the
construction fails with the ValueError. -/
theorem C4_witness :
    ("viscosity" : String) ≠ "thickness" ∧
    "viscosity" ∉ (airMedium.EXPECTED_PARAMS ++ airMedium.OPT_PARAMS).map Prod.fst ∧
    StochasticLayer.init airMedium (PyVal.vfloat 1) "viscosity" "L" =
      Except.error "Unable to draw a parameter undefined in the layer" :=
  ⟨by decide, by decide,
   C4_unknown_param_raises airMedium (PyVal.vfloat 1) "viscosity" "L"
     (by decide) (by decide)⟩

/-- C3: for a freshly constructed StochasticLayer, new_draw followed by
reinit restores the randomized quantity — the thickness when the target
is the thickness, the named medium parameter otherwise — to its exact
pre-draw value, whether the draw succeeded or raised. -/
theorem C3_redraw_reinit_roundtrip (m : Medium) (t : PyVal) (p n : String)
    (sl : StochasticLayer) (d : PyVal)
    (hinit : StochasticLayer.init m t p n = Except.ok sl) :
    ((sl.new_draw d).1.reinit).targetValue = sl.targetValue := by
  simp only [StochasticLayer.init] at hinit
  by_cases hp : p = "thickness"
  · rw [if_pos hp] at hinit
    injection hinit with h
    subst h
    cases hF : d.pyFloat with
    | ok f =>
      simp [StochasticLayer.new_draw, StochasticLayer.draw_thickness, hF,
            StochasticLayer.reinit, StochasticLayer.targetValue, hp]
    | error e =>
      simp [StochasticLayer.new_draw, StochasticLayer.draw_thickness, hF,
            StochasticLayer.reinit, StochasticLayer.targetValue, hp]
  · rw [if_neg hp] at hinit
    by_cases hs : (dictOf (m.EXPECTED_PARAMS ++ m.OPT_PARAMS) p).isSome
    · rw [if_pos hs] at hinit
      injection hinit with h
      subst h
      obtain ⟨et, het⟩ := Option.isSome_iff_exists.mp hs
      by_cases hT : d.typeOf = et
      · simp [StochasticLayer.new_draw, StochasticLayer.draw_medium_parameter, het,
              StochasticLayer.reinit, StochasticLayer.targetValue, hp, hT,
              Medium.setParam]
      · simp [StochasticLayer.new_draw, StochasticLayer.draw_medium_parameter, het,
              StochasticLayer.reinit, StochasticLayer.targetValue, hp, hT,
              Medium.setParam]
    · rw [if_neg hs] at hinit
      exact absurd hinit (by simp)

/-- C3 witness: constructing the rho-randomized layer over airMedium,
drawing the float 7 and calling reinit restores rho to its pre-draw
value. -/
theorem C3_witness :
    StochasticLayer.init airMedium (PyVal.vfloat 2) "rho" "L" = Except.ok slRho ∧
    ((slRho.new_draw (PyVal.vfloat 7)).1.reinit).targetValue = slRho.targetValue :=
  ⟨rfl,
   C3_redraw_reinit_roundtrip airMedium (PyVal.vfloat 2) "rho" "L" slRho
     (PyVal.vfloat 7) rfl⟩

/-- C6 counterexample: the claim says every medium-parameter mutation
performed through the StochasticLayer mechanism marks the cached
derived state stale, but reinit mutates the parameter back to its
initial value while leaving medium.omega untouched: on slStale, whose
medium was last evaluated at omega = 50 for the drawn parameter value,
reinit changes rho yet omega stays 50 instead of the stale marker -1. -/
theorem C6_counterexample :
    slStale.reinit.medium.params "rho" ≠ slStale.medium.params "rho" ∧
    slStale.reinit.medium.omega = 50 ∧
    slStale.reinit.medium.omega ≠ -1 := by
  decide

/-- C6 (amended): a successful medium-parameter draw marks the cached
derived state stale by setting medium.omega to -1, but reinit restores
the parameter without invalidating: it always leaves medium.omega
exactly as it found it. -/
theorem C6_draw_invalidates_reinit_does_not (sl : StochasticLayer) (d : PyVal)
    (hsucc : (sl.draw_medium_parameter d).2 = Except.ok (some d)) :
    (sl.draw_medium_parameter d).1.medium.omega = -1 ∧
    sl.reinit.medium.omega = sl.medium.omega := by
  constructor
  · unfold StochasticLayer.draw_medium_parameter at hsucc ⊢
    cases hh : sl.medium_params sl.stochastic_param with
    | none => rw [hh] at hsucc; simp at hsucc
    | some et =>
      rw [hh] at hsucc
      by_cases ht : d.typeOf = et
      · simp [ht]
      · simp [ht] at hsucc
  · unfold StochasticLayer.reinit
    split_ifs <;> simp [Medium.setParam]

/-- C6 witness: on slRho, drawing the float 7 succeeds and sets omega
to -1, while reinit leaves omega unchanged. -/
theorem C6_witness :
    (slRho.draw_medium_parameter (PyVal.vfloat 7)).2 = Except.ok (some (PyVal.vfloat 7)) ∧
    ((slRho.draw_medium_parameter (PyVal.vfloat 7)).1.medium.omega = -1 ∧
     slRho.reinit.medium.omega = slRho.medium.omega) :=
  ⟨by decide,
   C6_draw_invalidates_reinit_does_not slRho (PyVal.vfloat 7) (by decide)⟩

/-- C7: under the reference-semantics heap model of copy.deepcopy, a
layer owns an exclusive copy of its medium: building two layers from
the same medium object at address a copies its state to fresh
addresses, and a setattr mutation through the second layer's medium
changes neither the original object at a nor the first layer's copy. -/
theorem C7_deepcopy_no_alias (h0 : PyHeap) (a : Nat) (t1 t2 : PyVal)
    (n1 n2 k : String) (v : PyVal) (ha : a < h0.next) :
    (LayerH.init h0 a t1 n1).1.mediums ((LayerH.init h0 a t1 n1).2.mediumRef)
      = h0.mediums a ∧
    (heapSetParam (LayerH.init (LayerH.init h0 a t1 n1).1 a t2 n2).1
        ((LayerH.init (LayerH.init h0 a t1 n1).1 a t2 n2).2.mediumRef) k v).mediums a
      = h0.mediums a ∧
    (heapSetParam (LayerH.init (LayerH.init h0 a t1 n1).1 a t2 n2).1
        ((LayerH.init (LayerH.init h0 a t1 n1).1 a t2 n2).2.mediumRef) k v).mediums
        ((LayerH.init h0 a t1 n1).2.mediumRef)
      = (LayerH.init h0 a t1 n1).1.mediums ((LayerH.init h0 a t1 n1).2.mediumRef) := by
  have h1 : a ≠ h0.next := Nat.ne_of_lt ha
  have h2 : a ≠ h0.next + 1 := by omega
  have h3 : h0.next ≠ h0.next + 1 := by omega
  unfold LayerH.init PyHeap.deepcopy heapSetParam
  simp [h1, h2, h3]

/-- C7 witness: on the one-object heap holding airMedium at address 0,
two layers built from address 0 get private copies, and mutating the
second layer's medium leaves address 0 and the first layer's copy
unchanged. -/
theorem C7_witness :
    0 < heap0.next ∧
    ((LayerH.init heap0 0 (PyVal.vfloat 1) "A").1.mediums
        ((LayerH.init heap0 0 (PyVal.vfloat 1) "A").2.mediumRef)
      = heap0.mediums 0 ∧
    (heapSetParam (LayerH.init (LayerH.init heap0 0 (PyVal.vfloat 1) "A").1 0
          (PyVal.vfloat 2) "B").1
        ((LayerH.init (LayerH.init heap0 0 (PyVal.vfloat 1) "A").1 0
          (PyVal.vfloat 2) "B").2.mediumRef) "rho" (PyVal.vfloat 9)).mediums 0
      = heap0.mediums 0 ∧
    (heapSetParam (LayerH.init (LayerH.init heap0 0 (PyVal.vfloat 1) "A").1 0
          (PyVal.vfloat 2) "B").1
        ((LayerH.init (LayerH.init heap0 0 (PyVal.vfloat 1) "A").1 0
          (PyVal.vfloat 2) "B").2.mediumRef) "rho" (PyVal.vfloat 9)).mediums
        ((LayerH.init heap0 0 (PyVal.vfloat 1) "A").2.mediumRef)
      = (LayerH.init heap0 0 (PyVal.vfloat 1) "A").1.mediums
        ((LayerH.init heap0 0 (PyVal.vfloat 1) "A").2.mediumRef)) :=
  ⟨by decide,
   C7_deepcopy_no_alias heap0 0 (PyVal.vfloat 1) (PyVal.vfloat 2) "A" "B" "rho"
     (PyVal.vfloat 9) (by decide)⟩

/-- C8 counterexample: Layer.__init__ performs no thickness validation,
so constructing a layer with the non-positive thickness -1 succeeds and
the constructed layer carries thickness -1, refuting both that
construction fails for thickness at most 0 and that every constructed
layer has positive thickness. -/
theorem C8_counterexample :
    (Layer.init airMedium (PyVal.vfloat (-1)) "L").thickness = PyVal.vfloat (-1) :=
  rfl

/-- C8 (amended): the Layer constructor is total and stores the
thickness exactly as passed, with no validation; thickness > 0 is an
unchecked obligation of the caller, not an invariant enforced at
construction. -/
theorem C8_no_thickness_validation (m : Medium) (t : PyVal) (n : String) :
    (Layer.init m t n).thickness = t :=
  rfl
